import Mathlib

/-!
Verification development for the `libhotel` library: a pull-based coroutine
generator (`include/hotel/coro/generator.hpp`) and a PID controller
(`include/hotel/pid.hpp`) whose `run()` method returns a generator of control
outputs.

Modelling conventions (shallow embedding):
* Real-valued quantities (`float` gains, `_target_t` errors and setpoints) are
  modelled exactly by `ℚ`; clock instants are modelled as `ℤ` millisecond
  timestamps, so `duration_cast<milliseconds>(now - last_iteration).count()`
  becomes plain integer subtraction.
* A coroutine execution is modelled at suspension-point granularity: each
  resume of the producer runs the body until it yields a value, returns, or
  propagates an exception.  `ProdStep` records the outcome of one resume, and a
  producer body is a function from the resume index to its outcome.
* The C++ exception channel is modelled with `Except`: a member function that
  can rethrow a captured exception returns `Except E _`; one whose body
  contains no throwing operation returns a pure value (or always `Except.ok`).
* Mutable fields of an object become explicit state passing: a C++ method
  mutating `this` is a Lean function consuming and returning the state.
-/

namespace LibHotel

/-- Outcome of one resume of a producer coroutine body: it runs until it
either yields a value (`co_yield`), runs off the end (`co_return` /
`return_void`), or lets an exception propagate to `unhandled_exception`. -/
inductive ProdStep (T E : Type) where
  | yields (v : T)
  | completes
  | throws (e : E)
deriving DecidableEq

/-- True for the outcomes after which the coroutine sits at its final suspend
point, i.e. `handle.done()` becomes true. -/
def ProdStep.isTerminal {T E : Type} : ProdStep T E → Bool
  | .yields _ => false
  | .completes => true
  | .throws _ => true

/-- Model of a live coroutine frame together with its
`generator_promise_type` promise (`generator.hpp`, lines 16-55): `body` is the
producer's behaviour (outcome of the k-th resume), `resumed` counts how many
times the frame has been resumed, `current_value` is the promise slot written
by `yield_value`, and `exception` is the `std::exception_ptr` slot written by
`unhandled_exception`. -/
structure coroutine_state (T E : Type) where
  body : ℕ → ProdStep T E
  resumed : ℕ
  current_value : Option T
  exception : Option E

/-- Model of `handle.done()`: the coroutine is suspended at its final suspend
point once some already-performed resume ended in completion or an
exception. -/
def coroutine_state.done {T E : Type} (c : coroutine_state T E) : Bool :=
  (List.range c.resumed).any fun k => (c.body k).isTerminal

/-- Model of `handle.resume()`: run the body from the current suspension point
to the next one.  A yield stores the value via `yield_value`
(`generator.hpp`, line 38), completion runs `return_void`, and an escaping
exception is captured by `unhandled_exception` (line 34). -/
def coroutine_state.resume {T E : Type} (c : coroutine_state T E) :
    coroutine_state T E :=
  match c.body c.resumed with
  | .yields v => { c with resumed := c.resumed + 1, current_value := some v }
  | .completes => { c with resumed := c.resumed + 1 }
  | .throws e => { c with resumed := c.resumed + 1, exception := some e }

/-- Model of `hotel::coro::generator<T>` (`generator.hpp`, lines 138-207): it
owns an optional coroutine handle (`coro`), null for a default-constructed or
moved-from instance. -/
structure generator (T E : Type) where
  coro : Option (coroutine_state T E)

/-- Model of creating a generator from a producer routine
(`get_return_object`, line 212, plus `initial_suspend` returning
`suspend_always`, line 28): the frame exists but has never been resumed. -/
def generator.fromBody {T E : Type} (body : ℕ → ProdStep T E) :
    generator T E :=
  ⟨some { body := body, resumed := 0, current_value := none, exception := none }⟩

/-- Model of the default constructor `generator() : coro(nullptr)`
(line 144). -/
def generator.empty {T E : Type} : generator T E := ⟨none⟩

/-- Model of the move constructor `generator(generator&& rhs)` (line 148):
returns (the newly constructed generator, the moved-from source).  The new
instance takes `rhs`'s handle and the source is left with a null handle. -/
def generator.moveCtor {T E : Type} (rhs : generator T E) :
    generator T E × generator T E :=
  (⟨rhs.coro⟩, ⟨none⟩)

/-- Model of move assignment `operator=(generator other)` (line 150): `other`
is move-constructed from the right-hand side (leaving it null) and swapped
into the left-hand side; returns (the assigned-to generator, the moved-from
right-hand side). -/
def generator.moveAssign {T E : Type} (_lhs rhs : generator T E) :
    generator T E × generator T E :=
  (⟨rhs.coro⟩, ⟨none⟩)

/-- Model of `generator::next` (line 161):
`coro ? (coro.resume(), !coro.done()) : false`.  Returns the `bool` result
together with the generator's state afterwards.  Note the body contains no
throwing operation (in particular no `rethrow_if_exception`). -/
def generator.next {T E : Type} (g : generator T E) : Bool × generator T E :=
  match g.coro with
  | none => (false, g)
  | some c =>
    let c2 := c.resume
    (!c2.done, ⟨some c2⟩)

/-- Model of `generator::next` with the C++ exception channel made explicit:
since the body of `next` never rethrows the promise's captured exception, the
call always returns normally (`Except.ok`). -/
def generator.nextE {T E : Type} (g : generator T E) :
    Except E (Bool × generator T E) :=
  Except.ok g.next

/-- Model of the promise's `value()` accessor as seen through the generator
(`generator.hpp`, line 49): the most recently yielded value, `none` before the
first yield (where C++ would read a default-initialised slot). -/
def generator.currentValue {T E : Type} (g : generator T E) : Option T :=
  match g.coro with
  | none => none
  | some c => c.current_value

/-- Number of producer body steps that have been executed so far (0 when the
handle is null): each resume runs one segment of the producer body, so this
counts the producer's observable side effects. -/
def generator.stepsExecuted {T E : Type} (g : generator T E) : ℕ :=
  match g.coro with
  | none => 0
  | some c => c.resumed

/-- Model of `generator_sentinel` (line 57): a stateless tag type. -/
structure generator_sentinel where

/-- Model of `generator::end()` (lines 197-199): returns the sentinel. -/
def generator.endSentinel {T E : Type} (_g : generator T E) :
    generator_sentinel := {}

/-- Model of `generator_iterator<T>` (lines 60-110): wraps the coroutine
handle (null for a default-constructed iterator). -/
structure generator_iterator (T E : Type) where
  coro : Option (coroutine_state T E)

/-- Model of `operator==(const generator_iterator&, generator_sentinel)`
(lines 75-77): `!it.coro || it.coro.done()`. -/
def generator_iterator.eqSentinel {T E : Type} (it : generator_iterator T E)
    (_s : generator_sentinel) : Bool :=
  match it.coro with
  | none => true
  | some c => c.done

/-- Model of `generator_iterator::operator++` (lines 91-97) on a live
iterator (a null handle would be undefined behaviour, so the model takes the
coroutine state directly): resume, then if the coroutine is done rethrow any
captured exception (`rethrow_if_exception`, lines 43-47). -/
def generator_iterator.inc {T E : Type} (c : coroutine_state T E) :
    Except E (coroutine_state T E) :=
  let c2 := c.resume
  if c2.done then
    match c2.exception with
    | some e => Except.error e
    | none => Except.ok c2
  else Except.ok c2

/-- Number of producer body steps executed, observed through an iterator. -/
def generator_iterator.stepsExecuted {T E : Type}
    (it : generator_iterator T E) : ℕ :=
  match it.coro with
  | none => 0
  | some c => c.resumed

/-- Model of `generator::begin()` (lines 179-188): if the handle is non-null,
resume once and, if the coroutine is then done, rethrow any captured
exception; finally wrap the handle in an iterator. -/
def generator.begin {T E : Type} (g : generator T E) :
    Except E (generator_iterator T E) :=
  match g.coro with
  | none => Except.ok ⟨none⟩
  | some c =>
    let c2 := c.resume
    if c2.done then
      match c2.exception with
      | some e => Except.error e
      | none => Except.ok ⟨some c2⟩
    else Except.ok ⟨some c2⟩

/-- Mutable state of `hotel::pid_controller` (`pid.hpp`, lines 40-43):
setpoint, accumulated error, last error (all `_target_t`, modelled by `ℚ`),
and the timestamp of the last update (`time_point`, modelled as a millisecond
instant `ℤ`). -/
structure PidState where
  current_setpoint : ℚ
  error_accumulator : ℚ
  last_error : ℚ
  last_iteration : ℤ
deriving DecidableEq

/-- Model of the `pid_controller` constructor (`pid.hpp`, lines 78-84): takes
the initial setpoint and the construction-time clock reading, zero-initialises
the accumulated and last errors.  The gains, feedback function and settled
predicate are carried as explicit parameters of the operations below rather
than stored. -/
def pid_controller.mkState (setpoint : ℚ) (now : ℤ) : PidState :=
  { current_setpoint := setpoint
    error_accumulator := 0
    last_error := 0
    last_iteration := now }

/-- Model of `pid_controller::target` (`pid.hpp`, lines 141-148): assigns the
new setpoint, zeroes the accumulated and last errors, resets the timestamp to
the current clock reading, and returns the controller itself (here: the
updated state, with which a chained `run()` continues). -/
def pid_controller.target (_s : PidState) (setpoint : ℚ) (now : ℤ) :
    PidState :=
  { current_setpoint := setpoint
    error_accumulator := 0
    last_error := 0
    last_iteration := now }

/-- One iteration of the loop body of `pid_controller::run` (`pid.hpp`,
lines 105-123), given the feedback sample `f` and the clock reading `now` of
that iteration: compute `error = current_setpoint - f`; if the settled
predicate holds, break (result `none`, state untouched); otherwise accumulate
the error, compute `dT` from the old `last_iteration`, compute the output
`Kp * error + Ki * error_accumulator * dT + Kd * ((last_error - error) / dT)`
(with the already-updated accumulator and the not-yet-updated last error),
cast it to the output type, update `last_iteration` and `last_error`, and
yield. -/
def pid_controller.runStep {β : Type} (Kp Ki Kd : ℚ) (cast : ℚ → β)
    (settled : ℚ → Bool) (s : PidState) (f : ℚ) (now : ℤ) :
    Option (β × PidState) :=
  let error := s.current_setpoint - f
  if settled error then none
  else
    let acc := s.error_accumulator + error
    let dT : ℚ := ((now - s.last_iteration : ℤ) : ℚ)
    let value := cast (Kp * error + Ki * acc * dT +
      Kd * ((s.last_error - error) / dT))
    some (value,
      { current_setpoint := s.current_setpoint
        error_accumulator := acc
        last_error := error
        last_iteration := now })

/-- Controller state after `n` iterations of the `run` loop, starting from
`s0`, with `fb k` / `clock k` the feedback sample and clock reading of
iteration `k`.  A settling iteration breaks out of the loop and leaves the
state untouched (later entries are never reached by the coroutine). -/
def pid_controller.stateAt {β : Type} (Kp Ki Kd : ℚ) (cast : ℚ → β)
    (settled : ℚ → Bool) (fb : ℕ → ℚ) (clock : ℕ → ℤ) (s0 : PidState) :
    ℕ → PidState
  | 0 => s0
  | n + 1 =>
    match pid_controller.runStep Kp Ki Kd cast settled
        (pid_controller.stateAt Kp Ki Kd cast settled fb clock s0 n)
        (fb n) (clock n) with
    | some (_, s2) => s2
    | none => pid_controller.stateAt Kp Ki Kd cast settled fb clock s0 n

/-- Producer body of the coroutine created by `pid_controller::run`
(`pid.hpp`, lines 104-124): the n-th resume runs one loop iteration from the
state reached after `n` iterations and either yields the computed output or
completes (when the settled predicate fires).  The body itself never throws
when `fb` and `settled` are total, so no `throws` step occurs. -/
def pid_controller.producer {β E : Type} (Kp Ki Kd : ℚ) (cast : ℚ → β)
    (settled : ℚ → Bool) (fb : ℕ → ℚ) (clock : ℕ → ℤ) (s0 : PidState)
    (n : ℕ) : ProdStep β E :=
  match pid_controller.runStep Kp Ki Kd cast settled
      (pid_controller.stateAt Kp Ki Kd cast settled fb clock s0 n)
      (fb n) (clock n) with
  | some (v, _) => ProdStep.yields v
  | none => ProdStep.completes

/-- Model of `pid_controller::run` (`pid.hpp`, line 104): constructing the
coroutine returns a generator over the producer body, suspended before its
first statement. -/
def pid_controller.run {β E : Type} (Kp Ki Kd : ℚ) (cast : ℚ → β)
    (settled : ℚ → Bool) (fb : ℕ → ℚ) (clock : ℕ → ℤ) (s0 : PidState) :
    generator β E :=
  generator.fromBody
    (pid_controller.producer Kp Ki Kd cast settled fb clock s0)

/-- One iteration of the `run` loop body with the C++ exception channel made
explicit: the feedback call and the settled-predicate call may throw
(`fbE : Except E ℚ`, `settledE : ℚ → Except E Bool`), and the source performs
them (lines 106-108) before any mutation of the controller's fields
(lines 112, 119-120).  The result pairs the outcome (yielded output, break,
or propagated exception) with the controller state afterwards. -/
def pid_controller.runStepExc {β E : Type} (Kp Ki Kd : ℚ) (cast : ℚ → β)
    (fbE : Except E ℚ) (settledE : ℚ → Except E Bool) (now : ℤ)
    (s : PidState) : Except E (Option β) × PidState :=
  match fbE with
  | .error e => (.error e, s)
  | .ok f =>
    let error := s.current_setpoint - f
    match settledE error with
    | .error e => (.error e, s)
    | .ok true => (.ok none, s)
    | .ok false =>
      let acc := s.error_accumulator + error
      let dT : ℚ := ((now - s.last_iteration : ℤ) : ℚ)
      let value := cast (Kp * error + Ki * acc * dT +
        Kd * ((s.last_error - error) / dT))
      (.ok (some value),
        { current_setpoint := s.current_setpoint
          error_accumulator := acc
          last_error := error
          last_iteration := now })

/-- Feedback stream of the concrete scenario from the specification: the
feedback function returns 0 on its first invocation and 10 afterwards. -/
def scenarioFb : ℕ → ℚ := fun n => if n = 0 then 0 else 10

/-- Clock stream of the concrete scenario: iteration `k` reads instant
`k + 1` ms (construction at instant 0), so every `dT` is 1 ms. -/
def scenarioClock : ℕ → ℤ := fun n => (n : ℤ) + 1

/-- Settled predicate of the concrete scenario: true exactly when the error
equals 0. -/
def scenarioSettled : ℚ → Bool := fun e => decide (e = 0)

/-- The generator of the concrete scenario: gains Kp=1, Ki=0, Kd=0, setpoint
10, controller constructed at instant 0. -/
def scenarioGen : generator ℚ ℕ :=
  pid_controller.run 1 0 0 (fun q => q) scenarioSettled scenarioFb
    scenarioClock (pid_controller.mkState 10 0)

/-- A producer body that propagates exception 0 out of its very first resume,
before ever yielding (for example, a feedback function that throws on its
first invocation). -/
def throwBody : ℕ → ProdStep ℚ ℕ := fun _ => ProdStep.throws 0

/-- A producer body that yields 1 on every resume (used to exercise the
construction/begin contract on a concrete producer). -/
def yieldBody : ℕ → ProdStep ℚ ℕ := fun _ => ProdStep.yields 1

/-- Sanity check tying the two models of the loop body together: with a
non-throwing feedback sample and settled predicate, the exception-aware
iteration agrees with the pure one. -/
theorem pid_controller.runStepExc_agrees {β E : Type} (Kp Ki Kd : ℚ)
    (cast : ℚ → β) (f : ℚ) (settled : ℚ → Bool) (now : ℤ) (s : PidState) :
    pid_controller.runStepExc (E := E) Kp Ki Kd cast (Except.ok f)
        (fun x => Except.ok (settled x)) now s =
      match pid_controller.runStep Kp Ki Kd cast settled s f now with
      | none => (Except.ok none, s)
      | some (v, s2) => (Except.ok (some v), s2) := by
  unfold pid_controller.runStepExc pid_controller.runStep
  by_cases h : settled (s.current_setpoint - f) = true
  · simp [h]
  · simp [h]

/-- C5: for every controller state and every new setpoint, `target` zeroes
the error accumulator and the last error, resets the last-iteration timestamp
to the current clock instant, assigns the new setpoint, and hands back the
same controller (modelled as the updated state, with which a chained `run()`
continues). -/
theorem pid_target_resets (s : PidState) (sp : ℚ) (now : ℤ) :
    (pid_controller.target s sp now).error_accumulator = 0 ∧
    (pid_controller.target s sp now).last_error = 0 ∧
    (pid_controller.target s sp now).last_iteration = now ∧
    (pid_controller.target s sp now).current_setpoint = sp :=
  ⟨rfl, rfl, rfl, rfl⟩

/-- C8: a live generator iterator (non-null handle) compares equal to the end
sentinel exactly when the underlying coroutine execution state is finished. -/
theorem iterator_eq_sentinel_iff_done {T E : Type} (g : generator T E)
    (c : coroutine_state T E) :
    generator_iterator.eqSentinel ⟨some c⟩ (generator.endSentinel g) =
      c.done :=
  rfl

/-- C9: calling `next()` on an empty generator — default-constructed, or in
the moved-from state after move construction or move assignment — is defined
and returns `false` (end of sequence) while leaving the generator untouched,
resuming no coroutine state. -/
theorem generator_next_empty {T E : Type} (g h : generator T E) :
    generator.next (generator.empty : generator T E) =
      (false, generator.empty) ∧
    generator.next (generator.moveCtor g).2 =
      (false, (generator.moveCtor g).2) ∧
    generator.next (generator.moveAssign h g).2 =
      (false, (generator.moveAssign h g).2) :=
  ⟨rfl, rfl, rfl⟩

/-- C6: after any prior history (in particular a non-zero accumulated
integral error), `target(newSetpoint)` followed by `run()` produces exactly
the generator — and in particular the same first output — that a freshly
constructed controller with the same gains, feedback function, settled
predicate and initial setpoint `newSetpoint` would produce, given the same
clock and feedback readings. -/
theorem pid_target_then_run_fresh {β E : Type} (Kp Ki Kd : ℚ) (cast : ℚ → β)
    (settled : ℚ → Bool) (fb : ℕ → ℚ) (clock : ℕ → ℤ) (s : PidState)
    (sp : ℚ) (now : ℤ) (_h : s.error_accumulator ≠ 0) :
    pid_controller.run (E := E) Kp Ki Kd cast settled fb clock
        (pid_controller.target s sp now) =
      pid_controller.run (E := E) Kp Ki Kd cast settled fb clock
        (pid_controller.mkState sp now) ∧
    pid_controller.producer (E := E) Kp Ki Kd cast settled fb clock
        (pid_controller.target s sp now) 0 =
      pid_controller.producer (E := E) Kp Ki Kd cast settled fb clock
        (pid_controller.mkState sp now) 0 :=
  ⟨rfl, rfl⟩

/-- Witness for C6 at a concrete controller with accumulated integral error
3, last error 2, setpoint 5 retargeted to 20. -/
theorem pid_target_then_run_fresh_witness :
    pid_controller.run (E := ℕ) 1 1 1 (fun q => q) scenarioSettled
        (fun _ => 3) (fun n => (n : ℤ) + 1)
        (pid_controller.target ⟨5, 3, 2, 7⟩ 20 0) =
      pid_controller.run (E := ℕ) 1 1 1 (fun q => q) scenarioSettled
        (fun _ => 3) (fun n => (n : ℤ) + 1)
        (pid_controller.mkState 20 0) ∧
    pid_controller.producer (E := ℕ) 1 1 1 (fun q => q) scenarioSettled
        (fun _ => 3) (fun n => (n : ℤ) + 1)
        (pid_controller.target ⟨5, 3, 2, 7⟩ 20 0) 0 =
      pid_controller.producer (E := ℕ) 1 1 1 (fun q => q) scenarioSettled
        (fun _ => 3) (fun n => (n : ℤ) + 1)
        (pid_controller.mkState 20 0) 0 :=
  pid_target_then_run_fresh 1 1 1 (fun q => q) scenarioSettled (fun _ => 3)
    (fun n => (n : ℤ) + 1) ⟨5, 3, 2, 7⟩ 20 0 (by norm_num)

/-- C10: if the feedback function or the settled predicate raises during an
iteration of the `run` loop, the controller's mutable state retains the
values it had before the iteration began: every mutation in the source comes
after both calls, so a faulting iteration performs no partial update. -/
theorem pid_fault_no_partial_update {β E : Type} (Kp Ki Kd : ℚ)
    (cast : ℚ → β) (fbE : Except E ℚ) (settledE : ℚ → Except E Bool)
    (now : ℤ) (s : PidState) (e : E)
    (h : (pid_controller.runStepExc Kp Ki Kd cast fbE settledE now s).1 =
      Except.error e) :
    (pid_controller.runStepExc Kp Ki Kd cast fbE settledE now s).2 = s := by
  unfold pid_controller.runStepExc at h ⊢
  cases fbE with
  | error e2 => rfl
  | ok f =>
    cases hs : settledE (s.current_setpoint - f) with
    | error e2 => simp [hs]
    | ok b =>
      cases b with
      | true => simp [hs]
      | false => simp [hs] at h

/-- Witness for C10: a feedback call that throws exception 7 leaves the
freshly constructed controller state unchanged. -/
theorem pid_fault_no_partial_update_witness :
    (pid_controller.runStepExc (β := ℚ) 1 1 1 (fun q => q) (Except.error 7)
        (fun _ => Except.ok false) 5 (pid_controller.mkState 10 0)).2 =
      pid_controller.mkState 10 0 :=
  pid_fault_no_partial_update 1 1 1 (fun q => q) (Except.error 7)
    (fun _ => Except.ok false) 5 (pid_controller.mkState 10 0) 7 rfl

/-- C1: in every iteration of the `run` generator in which the settled
predicate returns false, the yielded value equals
`Kp * error + Ki * error_accumulator * dT + Kd * (last_error - error) / dT`
cast to the output type, where `error` is the setpoint minus the feedback
sample of that iteration, the accumulator already includes the current
iteration's error, and `dT` is the elapsed milliseconds since the previous
iteration (or since construction / the last `target()` call on the first
iteration). -/
theorem pid_run_yield_formula {β E : Type} (Kp Ki Kd : ℚ) (cast : ℚ → β)
    (settled : ℚ → Bool) (fb : ℕ → ℚ) (clock : ℕ → ℤ) (s0 : PidState)
    (n : ℕ)
    (h : settled
      ((pid_controller.stateAt Kp Ki Kd cast settled fb clock s0 n).current_setpoint
        - fb n) = false) :
    pid_controller.producer (E := E) Kp Ki Kd cast settled fb clock s0 n =
      ProdStep.yields (cast (
        Kp * ((pid_controller.stateAt Kp Ki Kd cast settled fb clock s0 n).current_setpoint - fb n)
        + Ki * ((pid_controller.stateAt Kp Ki Kd cast settled fb clock s0 n).error_accumulator
            + ((pid_controller.stateAt Kp Ki Kd cast settled fb clock s0 n).current_setpoint - fb n))
          * ((clock n - (pid_controller.stateAt Kp Ki Kd cast settled fb clock s0 n).last_iteration : ℤ) : ℚ)
        + Kd * (((pid_controller.stateAt Kp Ki Kd cast settled fb clock s0 n).last_error
            - ((pid_controller.stateAt Kp Ki Kd cast settled fb clock s0 n).current_setpoint - fb n))
          / ((clock n - (pid_controller.stateAt Kp Ki Kd cast settled fb clock s0 n).last_iteration : ℤ) : ℚ)))) := by
  unfold pid_controller.producer pid_controller.runStep
  simp [h]

/-- Witness for C1: first iteration of a controller with all gains 1,
setpoint 10, constant feedback 3, clock reading 1 ms (so dT = 1): the yielded
value is 1*7 + 1*7*1 + 1*((0 - 7)/1) = 7. -/
theorem pid_run_yield_formula_witness :
    pid_controller.producer (E := ℕ) 1 1 1 (fun q => q) scenarioSettled
        (fun _ => 3) (fun n => (n : ℤ) + 1) (pid_controller.mkState 10 0) 0 =
      ProdStep.yields ((fun q => q) (
        1 * ((pid_controller.stateAt 1 1 1 (fun q => q) scenarioSettled
            (fun _ => 3) (fun n => (n : ℤ) + 1) (pid_controller.mkState 10 0) 0).current_setpoint - 3)
        + 1 * ((pid_controller.stateAt 1 1 1 (fun q => q) scenarioSettled
            (fun _ => 3) (fun n => (n : ℤ) + 1) (pid_controller.mkState 10 0) 0).error_accumulator
            + ((pid_controller.stateAt 1 1 1 (fun q => q) scenarioSettled
              (fun _ => 3) (fun n => (n : ℤ) + 1) (pid_controller.mkState 10 0) 0).current_setpoint - 3))
          * (((0 : ℤ) + 1 - (pid_controller.stateAt 1 1 1 (fun q => q) scenarioSettled
            (fun _ => 3) (fun n => (n : ℤ) + 1) (pid_controller.mkState 10 0) 0).last_iteration : ℤ) : ℚ)
        + 1 * (((pid_controller.stateAt 1 1 1 (fun q => q) scenarioSettled
            (fun _ => 3) (fun n => (n : ℤ) + 1) (pid_controller.mkState 10 0) 0).last_error
            - ((pid_controller.stateAt 1 1 1 (fun q => q) scenarioSettled
              (fun _ => 3) (fun n => (n : ℤ) + 1) (pid_controller.mkState 10 0) 0).current_setpoint - 3))
          / (((0 : ℤ) + 1 - (pid_controller.stateAt 1 1 1 (fun q => q) scenarioSettled
            (fun _ => 3) (fun n => (n : ℤ) + 1) (pid_controller.mkState 10 0) 0).last_iteration : ℤ) : ℚ)))) :=
  pid_run_yield_formula 1 1 1 (fun q => q) scenarioSettled (fun _ => 3)
    (fun n => (n : ℤ) + 1) (pid_controller.mkState 10 0) 0
    (by norm_num [pid_controller.stateAt, pid_controller.mkState,
      scenarioSettled])

/-- C4: in every iteration of the `run` generator in which the settled
predicate returns true for the freshly computed error, the generator
completes and the iteration leaves the controller state (setpoint, error
accumulator, last error, last-iteration timestamp) unchanged: a settling
iteration contributes nothing to the integral or derivative history. -/
theorem pid_settle_frame {β E : Type} (Kp Ki Kd : ℚ) (cast : ℚ → β)
    (settled : ℚ → Bool) (fb : ℕ → ℚ) (clock : ℕ → ℤ) (s0 : PidState)
    (n : ℕ)
    (h : settled
      ((pid_controller.stateAt Kp Ki Kd cast settled fb clock s0 n).current_setpoint
        - fb n) = true) :
    pid_controller.producer (E := E) Kp Ki Kd cast settled fb clock s0 n =
      ProdStep.completes ∧
    pid_controller.stateAt Kp Ki Kd cast settled fb clock s0 (n + 1) =
      pid_controller.stateAt Kp Ki Kd cast settled fb clock s0 n := by
  have hnone : pid_controller.runStep Kp Ki Kd cast settled
      (pid_controller.stateAt Kp Ki Kd cast settled fb clock s0 n)
      (fb n) (clock n) = none := by
    unfold pid_controller.runStep
    simp [h]
  constructor
  · unfold pid_controller.producer
    rw [hnone]
  · conv_lhs => unfold pid_controller.stateAt
    rw [hnone]

/-- Witness for C4: a controller already at its setpoint (feedback 10 equals
setpoint 10) settles on the first iteration, completing the generator with
the state untouched. -/
theorem pid_settle_frame_witness :
    pid_controller.producer (E := ℕ) (β := ℚ) 1 1 1 (fun q => q)
        scenarioSettled (fun _ => 10) (fun n => (n : ℤ) + 1)
        (pid_controller.mkState 10 0) 0 = ProdStep.completes ∧
    pid_controller.stateAt 1 1 1 (fun q => (q : ℚ)) scenarioSettled
        (fun _ => 10) (fun n => (n : ℤ) + 1) (pid_controller.mkState 10 0)
        (0 + 1) =
      pid_controller.stateAt 1 1 1 (fun q => q) scenarioSettled
        (fun _ => 10) (fun n => (n : ℤ) + 1) (pid_controller.mkState 10 0)
        0 :=
  pid_settle_frame 1 1 1 (fun q => q) scenarioSettled (fun _ => 10)
    (fun n => (n : ℤ) + 1) (pid_controller.mkState 10 0) 0
    (by norm_num [pid_controller.stateAt, pid_controller.mkState,
      scenarioSettled])

/-- C7: constructing a generator from a producer routine leaves the producer
suspended before its first statement — zero producer body steps (hence zero
feedback invocations: each step of the PID producer samples the feedback
function exactly once) have been executed, both for an arbitrary producer
body and for the generator returned by `pid_controller::run` — and `begin()`
is what performs the first implicit advance: the iterator it returns has
executed exactly one producer step. -/
theorem generator_construction_suspended {T E β : Type}
    (body : ℕ → ProdStep T E) (Kp Ki Kd : ℚ) (cast : ℚ → β)
    (settled : ℚ → Bool) (fb : ℕ → ℚ) (clock : ℕ → ℤ) (s0 : PidState)
    (it : generator_iterator T E)
    (h : generator.begin (generator.fromBody body) = Except.ok it) :
    generator.stepsExecuted (generator.fromBody body) = 0 ∧
    generator.stepsExecuted
      (pid_controller.run (E := E) Kp Ki Kd cast settled fb clock s0) = 0 ∧
    generator_iterator.stepsExecuted it = 1 := by
  refine ⟨rfl, rfl, ?_⟩
  have hres : ∀ c : coroutine_state T E, (c.resume).resumed = c.resumed + 1 := by
    intro c
    unfold coroutine_state.resume
    cases c.body c.resumed <;> rfl
  unfold generator.begin generator.fromBody at h
  simp only [] at h
  split at h
  · split at h
    · exact absurd h (by simp)
    · cases h
      simp [generator_iterator.stepsExecuted, hres]
  · cases h
    simp [generator_iterator.stepsExecuted, hres]

/-- Witness for C7 on the concrete always-yielding producer: construction
has executed zero steps, the scenario `run()` generator has executed zero
steps, and the iterator returned by `begin()` has executed exactly one. -/
theorem generator_construction_suspended_witness :
    generator.stepsExecuted (generator.fromBody yieldBody) = 0 ∧
    generator.stepsExecuted
      (pid_controller.run (E := ℕ) 1 0 0 (fun q => q) scenarioSettled
        scenarioFb scenarioClock (pid_controller.mkState 10 0)) = 0 ∧
    generator_iterator.stepsExecuted
      (⟨some { body := yieldBody, resumed := 1,
               current_value := some 1, exception := none }⟩ :
        generator_iterator ℚ ℕ) = 1 :=
  generator_construction_suspended yieldBody 1 0 0 (fun q => q)
    scenarioSettled scenarioFb scenarioClock (pid_controller.mkState 10 0)
    ⟨some { body := yieldBody, resumed := 1,
            current_value := some 1, exception := none }⟩ rfl

/-- C2: for the concrete scenario (Kp=1, Ki=0, Kd=0, setpoint 10, feedback
samples 0 then 10, settled exactly on error 0), the first advance of the
`run()` generator yields output 10; the second advance observes error 0,
settles, and ends the generator — the producer's second step completes
without yielding, the advance returns false, and the value slot still holds
the first (and only) yielded value 10. -/
theorem pid_scenario_two_advances :
    (generator.next scenarioGen).1 = true ∧
    generator.currentValue (generator.next scenarioGen).2 = some 10 ∧
    (generator.next (generator.next scenarioGen).2).1 = false ∧
    generator.currentValue
      (generator.next (generator.next scenarioGen).2).2 = some 10 ∧
    pid_controller.producer (E := ℕ) (β := ℚ) 1 0 0 (fun q => q)
      scenarioSettled scenarioFb scenarioClock (pid_controller.mkState 10 0)
      1 = ProdStep.completes := by
  norm_num [scenarioGen, generator.next, pid_controller.run,
    generator.fromBody, coroutine_state.resume, coroutine_state.done,
    pid_controller.producer, pid_controller.stateAt, pid_controller.runStep,
    pid_controller.mkState, scenarioFb, scenarioClock, scenarioSettled,
    generator.currentValue, List.range_succ, ProdStep.isTerminal]

/-- C3 (counterexample): for a producer that raises failure 0 before ever
yielding, `next()` — the generator's advance operation — reports
end-of-sequence (`false`) but does not surface the failure: the call returns
normally (`Except.ok`) with the exception still merely captured in the
promise, not `Except.error 0` as the claim requires. -/
theorem generator_next_swallows_failure :
    generator.nextE (generator.fromBody throwBody) =
      Except.ok (false,
        ⟨some { body := throwBody, resumed := 1,
                current_value := none, exception := some 0 }⟩) ∧
    generator.nextE (generator.fromBody throwBody) ≠ Except.error 0 := by
  constructor
  · rfl
  · intro hcontra
    exact Except.noConfusion hcontra

/-- C3 (amended): if the producer raises a failure before yielding, then the
advances performed through the iterator interface — `operator++` on a live
iterator, and `begin()` — observe the completed state and surface that same
failure to the caller; `next()` reports end-of-sequence but leaves the
failure captured without surfacing it (see the counterexample). -/
theorem iterator_inc_surfaces_failure {T E : Type} (c : coroutine_state T E)
    (e : E) (h : c.body c.resumed = ProdStep.throws e) :
    generator_iterator.inc c = Except.error e ∧
    (c.resume).done = true ∧
    generator.begin ⟨some c⟩ = Except.error e := by
  have hres : c.resume =
      { c with resumed := c.resumed + 1, exception := some e } := by
    unfold coroutine_state.resume
    rw [h]
  have hdone2 : ({ c with resumed := c.resumed + 1, exception := some e } :
      coroutine_state T E).done = true := by
    unfold coroutine_state.done
    simp [List.range_succ, h, ProdStep.isTerminal]
  have hdone : (c.resume).done = true := by
    rw [hres]
    exact hdone2
  refine ⟨?_, hdone, ?_⟩
  · unfold generator_iterator.inc
    simp [hres, hdone2]
  · unfold generator.begin
    simp [hres, hdone2]

/-- Witness for C3's amended theorem on the concrete throwing producer: both
`operator++` and `begin()` surface failure 0 the moment the completed state
is observed. -/
theorem iterator_inc_surfaces_failure_witness :
    generator_iterator.inc
      ({ body := throwBody, resumed := 0,
         current_value := none, exception := none } :
        coroutine_state ℚ ℕ) = Except.error 0 ∧
    (coroutine_state.resume
      ({ body := throwBody, resumed := 0,
         current_value := none, exception := none } :
        coroutine_state ℚ ℕ)).done = true ∧
    generator.begin
      (⟨some { body := throwBody, resumed := 0,
               current_value := none, exception := none }⟩ :
        generator ℚ ℕ) = Except.error 0 :=
  iterator_inc_surfaces_failure
    { body := throwBody, resumed := 0,
      current_value := none, exception := none } 0 rfl

end LibHotel
